import Mathlib

/-!
Verification of the adversarial quadrotor hover environment
(`adversaryhover_phoenix_modified_train.py`).

The development shallowly embeds the Python source: numeric values are
modelled as exact rationals (IEEE doubles are rationals; `np.pi` is
embedded as the exact rational value of the float64 constant), the
PyBullet engine calls made by one physics substep are recorded as an
explicit effect trace, and external collaborators (the phoenix motor
model, the ground-effect model, the gym random sampler) are kept as
abstract parameters so every theorem holds for any behaviour of those
collaborators.
-/

/-- The exact rational value of the IEEE-754 double `np.pi`
(`884279719003555 * 2^-48`). -/
def np_pi : ℚ := 884279719003555 / 281474976710656

/-- A 3-vector (world- or body-frame), as used for positions, velocities,
angular rates and torques throughout the source. -/
structure Vec3 where
  x : ℚ
  y : ℚ
  z : ℚ
deriving DecidableEq, Repr

/-- A quaternion in PyBullet's `(x, y, z, w)` component order, as returned
by the engine for the drone's orientation. -/
structure Quat where
  x : ℚ
  y : ℚ
  z : ℚ
  w : ℚ
deriving DecidableEq, Repr

/-- A 3x3 matrix given by its nine entries (row major, as PyBullet returns
`getMatrixFromQuaternion` before the `reshape(3, 3)`). -/
structure Mat3 where
  m00 : ℚ
  m01 : ℚ
  m02 : ℚ
  m10 : ℚ
  m11 : ℚ
  m12 : ℚ
  m20 : ℚ
  m21 : ℚ
  m22 : ℚ
deriving DecidableEq, Repr

/-- Matrix-vector product, `np.dot(base_rot, v)`. -/
def matVec (M : Mat3) (v : Vec3) : Vec3 :=
  ⟨M.m00 * v.x + M.m01 * v.y + M.m02 * v.z,
   M.m10 * v.x + M.m11 * v.y + M.m12 * v.z,
   M.m20 * v.x + M.m21 * v.y + M.m22 * v.z⟩

/-- Matrix transpose (used to state what "rotating into the body frame"
would be: for a unit quaternion the world-to-body map is the transpose of
the body-to-world rotation matrix). -/
def Mat3.transpose (M : Mat3) : Mat3 :=
  ⟨M.m00, M.m10, M.m20, M.m01, M.m11, M.m21, M.m02, M.m12, M.m22⟩

/-- Scalar multiplication of a 3-vector, `s * np.array(v)`. -/
def smulV (s : ℚ) (v : Vec3) : Vec3 := ⟨s * v.x, s * v.y, s * v.z⟩

/-- The zero 3-vector. -/
def Vec3.zero : Vec3 := ⟨0, 0, 0⟩

/-- `phoenix_drone_simulation.envs.utils.deg2rad`. -/
def deg2rad (d : ℚ) : ℚ := d * (np_pi / 180)

/-- `phoenix_drone_simulation.envs.utils.rad2deg`. -/
def rad2deg (r : ℚ) : ℚ := r * (180 / np_pi)

/-- `pb.getMatrixFromQuaternion`: the rotation matrix of a (unit)
quaternion in PyBullet's `(x, y, z, w)` order.  For the drone's
orientation quaternion this is the body-to-world rotation matrix. -/
def getMatrixFromQuaternion (q : Quat) : Mat3 :=
  ⟨1 - 2 * (q.y ^ 2 + q.z ^ 2), 2 * (q.x * q.y - q.z * q.w), 2 * (q.x * q.z + q.y * q.w),
   2 * (q.x * q.y + q.z * q.w), 1 - 2 * (q.x ^ 2 + q.z ^ 2), 2 * (q.y * q.z - q.x * q.w),
   2 * (q.x * q.z - q.y * q.w), 2 * (q.y * q.z + q.x * q.w), 1 - 2 * (q.x ^ 2 + q.y ^ 2)⟩

/-- Per-motor quantities (forces, speeds, commands) of the four-rotor
CrazyFlie are indexed by `Fin 4`. -/
def Motors : Type := Fin 4 → ℚ

/-- The drone state read back from the engine and cached on the agent:
position `xyz`, orientation `quaternion`, linear velocity `xyz_dot`,
attitude `rpy` (roll, pitch, yaw in radians), attitude rates `rpy_dot`
(rad/s), and the motor-speed state `x` maintained by the first-order
motor dynamics. -/
structure DroneState where
  xyz : Vec3
  quaternion : Quat
  xyz_dot : Vec3
  rpy : Vec3
  rpy_dot : Vec3
  x : Motors

/-- The drag force of lines 66-73 of the source:
`rpm = drone.x**2 * 25000`,
`drag_factors = -1 * DRAG_COEFF * np.sum(2*np.pi*rpm/60)`,
`drag = np.dot(base_rot, drag_factors * np.array(vel))`,
where `base_rot` is the reshaped `getMatrixFromQuaternion(quat)` and
`vel = drone.xyz_dot`. -/
def dragForce (dragCoeff : ℚ) (quat : Quat) (vel : Vec3) (x : Motors) : Vec3 :=
  let base_rot := getMatrixFromQuaternion quat
  let rpm : Motors := fun i => (x i) ^ 2 * 25000
  let drag_factors := -1 * dragCoeff * (∑ i : Fin 4, 2 * np_pi * rpm i / 60)
  matVec base_rot (smulV drag_factors vel)

/-- The scalar drag factor alone, for restating the drag formula. -/
def dragFactor (dragCoeff : ℚ) (x : Motors) : ℚ :=
  -1 * dragCoeff * (∑ i : Fin 4, 2 * np_pi * ((x i) ^ 2 * 25000) / 60)

/-- An action vector (PWM command), one entry per motor. -/
def ActionVec : Type := Fin 4 → ℚ

/-- The external phoenix agent / physics collaborators that
`PybulletPhysicsWithAdversary.step_forward` calls into but does not
define: `drone.apply_action` (returns the per-motor forces and the yaw
torque, and advances the first-order motor-speed state `x`), and
`PyBulletPhysics.calculate_ground_effect` (returns whether the ground
effect applies and the per-motor corrective forces).  They are abstract
parameters: every theorem below holds for any behaviour of them. -/
structure AgentModel where
  applyAction : Motors → ActionVec → Motors × ℚ × Motors
  calculateGroundEffect : Motors → Bool × Motors

/-- PyBullet force/torque frame flag. -/
inductive Frame where
  | linkFrame
  | worldFrame
deriving DecidableEq, Repr

/-- One engine call queued or issued by a physics substep, in the order
the source issues them. -/
inductive Effect where
  | applyMotorForces (forces : Motors)
  | applyZTorque (torque : ℚ)
  | applyExternalTorque (linkIndex : ℕ) (torqueObj : Vec3) (frame : Frame)
  | applyForce (force : Vec3)
  | stepSimulation
  | updateInformation

/-- `CrazyFlieBulletAgentWithAdversary.apply_x_torque`: queue
`[torque, 0, 0]` on link 4 (center of mass) in the link frame. -/
def apply_x_torque (torque : ℚ) : Effect :=
  Effect.applyExternalTorque 4 ⟨torque, 0, 0⟩ Frame.linkFrame

/-- `CrazyFlieBulletAgentWithAdversary.apply_y_torque`: queue
`[0, torque, 0]` on link 4 (center of mass) in the link frame. -/
def apply_y_torque (torque : ℚ) : Effect :=
  Effect.applyExternalTorque 4 ⟨0, torque, 0⟩ Frame.linkFrame

/-- `PybulletPhysicsWithAdversary.step_forward` (lines 47-84 of the
source), as the list of engine calls it performs, in order: motor forces
and yaw torque from `apply_action`, the two adversary torques from
`dstb[0]` and `dstb[1]`, the drag force, the conditional ground-effect
forces, one `stepSimulation` tick, and the state refresh. -/
def step_forward (A : AgentModel) (useGroundEffect : Bool) (dragCoeff : ℚ)
    (drone : DroneState) (action : ActionVec) (dstb : Vec3) : List Effect :=
  let res := A.applyAction drone.x action
  let motor_forces := res.1
  let z_torque := res.2.1
  let x' := res.2.2
  let drag := dragForce dragCoeff drone.quaternion drone.xyz_dot x'
  let ge := A.calculateGroundEffect motor_forces
  [Effect.applyMotorForces motor_forces,
   Effect.applyZTorque z_torque,
   apply_x_torque dstb.x,
   apply_y_torque dstb.y,
   Effect.applyForce drag]
  ++ (if ge.1 && useGroundEffect then [Effect.applyMotorForces ge.2] else [])
  ++ [Effect.stepSimulation, Effect.updateInformation]

/-- The external-torque calls of a trace, with their queued vectors. -/
def externalTorques (tr : List Effect) : List (ℕ × Vec3 × Frame) :=
  tr.filterMap fun e =>
    match e with
    | Effect.applyExternalTorque l v f => some (l, v, f)
    | _ => none

/-- How many integration ticks a trace performs. -/
def stepSimulationCount (tr : List Effect) : ℕ :=
  tr.countP fun e =>
    match e with
    | Effect.stepSimulation => true
    | _ => false

/-- `DroneHoverBulletEnvWithAdversary.compute_done` (lines 312-324 of the
source), kept in numpy's semantics: `arr[mask].any()` filters the array by
the boolean mask and then tests whether any selected entry is nonzero.
`rp = drone.rpy[:2]` takes roll and pitch only; `rpy_dot` is the full
roll/pitch/yaw rate vector (it is not sliced). -/
def compute_done (drone : DroneState) : Bool :=
  let rp : List ℚ := [drone.rpy.x, drone.rpy.y]
  let d := deg2rad 75
  let z_limit : Bool := decide (drone.xyz.z < 0.2)
  let rpy_limit : Bool :=
    (rp.filter (fun a => decide (|a| > d))).any (fun a => decide (a ≠ 0))
  let rpy_dot : List ℚ := [drone.rpy_dot.x, drone.rpy_dot.y, drone.rpy_dot.z]
  let rpy_dot_limit : Bool :=
    (rpy_dot.filter (fun a => decide (rad2deg |a| > 1000))).any (fun a => decide (a ≠ 0))
  if rpy_limit || rpy_dot_limit || z_limit then true else false

/-- The termination rule exactly as claim C1 words it: altitude strictly
below 0.2, or roll/pitch magnitude strictly above 75 degrees, or
roll-rate/pitch-rate magnitude strictly above 1000 degrees per second
with the yaw rate excluded.  Stated from the spec's words, to be compared
with `compute_done`. -/
def compute_done_claim (drone : DroneState) : Bool :=
  decide (drone.xyz.z < 0.2) ||
  (decide (|drone.rpy.x| > deg2rad 75) || decide (|drone.rpy.y| > deg2rad 75)) ||
  (decide (rad2deg |drone.rpy_dot.x| > 1000) || decide (rad2deg |drone.rpy_dot.y| > 1000))

/-- `NormalizeActionSpaceWrapper` stores the original per-component action
bounds `action_space_low` / `action_space_high`. -/
structure ActionBounds where
  low : ActionVec
  high : ActionVec

/-- `NormalizeActionSpaceWrapper.normalize_action`:
`2 * ((action - low) / (high - low)) - 1`, elementwise. -/
def normalize_action (b : ActionBounds) (action : ActionVec) : ActionVec :=
  fun i => 2 * ((action i - b.low i) / (b.high i - b.low i)) - 1

/-- `NormalizeActionSpaceWrapper.denormalize_action`:
`(action + 1) / 2 * (high - low) + low`, elementwise. -/
def denormalize_action (b : ActionBounds) (action : ActionVec) : ActionVec :=
  fun i => (action i + 1) / 2 * (b.high i - b.low i) + b.low i

/-- `self.dstb_space.low` (line 178 of the source): `[-10^-3, -10^-3, -10^-4]`. -/
def dstb_space_low : Vec3 := ⟨-(1/1000), -(1/1000), -(1/10000)⟩

/-- `self.dstb_space.high` (line 179 of the source): `[10^-3, 10^-3, 10^-4]`. -/
def dstb_space_high : Vec3 := ⟨1/1000, 1/1000, 1/10000⟩

/-- Modelled from the spec: `gym.spaces.Box.sample` is external library
code; the spec says the generator "returns a 3-vector uniformly drawn
from the configured per-axis symmetric bound".  A uniform draw from the
box is modelled as `low + u * (high - low)` for an underlying random draw
`u` with every component in `[0, 1]`. -/
def box_sample (low high : Vec3) (u : Vec3) : Vec3 :=
  ⟨low.x + u.x * (high.x - low.x),
   low.y + u.y * (high.y - low.y),
   low.z + u.z * (high.z - low.z)⟩

/-- `self.dstb_gen = lambda x: self.dstb_space.sample()` (line 181 of the
source): the state argument `x` is bound but never used; the sample is
drawn from `dstb_space`.  The underlying random draw `u` is made explicit
so that two calls under the same draw can be compared. -/
def dstb_gen (x : DroneState) (u : Vec3) : Vec3 :=
  box_sample dstb_space_low dstb_space_high u

/-- One event of `DroneHoverBulletEnvWithAdversary.step` (lines 253-301
of the source), recorded in the order the method performs them. -/
inductive EnvEvent where
  | getState
  | sampleDstb (dstb : Vec3)
  | stepForwardCall (action : ActionVec) (dstb : Vec3)
  | computeObservation
  | incrementIteration
  | computeHistory
  | computeReward
  | computeInfo
  | computeDoneCheck

/-- The `for _ in range(aggregate_phy_steps)` loop body of `step`:
`physics.step_forward(action, dstb)`, then `compute_observation()`, then
`self.iteration += 1`, repeated. -/
def substepLoop (action : ActionVec) (dstb : Vec3) : ℕ → List EnvEvent
  | 0 => []
  | Nat.succ k =>
      [EnvEvent.stepForwardCall action dstb,
       EnvEvent.computeObservation,
       EnvEvent.incrementIteration] ++ substepLoop action dstb k

/-- `DroneHoverBulletEnvWithAdversary.step`: read the drone state, sample
the disturbance once, run the substep loop `aggregate_phy_steps` times
with the same `action` and `dstb`, then compute history, reward, info and
done.  The disturbance generator is abstract (`gen`), so the trace shape
holds for any generator. -/
def env_step (aggregate_phy_steps : ℕ) (gen : DroneState → Vec3)
    (drone : DroneState) (action : ActionVec) : List EnvEvent :=
  let x := drone
  let dstb := gen x
  [EnvEvent.getState, EnvEvent.sampleDstb dstb]
  ++ substepLoop action dstb aggregate_phy_steps
  ++ [EnvEvent.computeHistory, EnvEvent.computeReward,
      EnvEvent.computeInfo, EnvEvent.computeDoneCheck]

/-- The `(action, dstb)` arguments of the `step_forward` calls of a step
trace, in order. -/
def stepForwardCalls (tr : List EnvEvent) : List (ActionVec × Vec3) :=
  tr.filterMap fun e =>
    match e with
    | EnvEvent.stepForwardCall a d => some (a, d)
    | _ => none

/-- How many times a step trace samples the disturbance generator. -/
def sampleCount (tr : List EnvEvent) : ℕ :=
  tr.countP fun e =>
    match e with
    | EnvEvent.sampleDstb _ => true
    | _ => false

/-- One action of `DroneHoverBulletEnvWithAdversary._setup_simulation`
(lines 202-248 of the source), in the order the method performs them. -/
inductive SetupEvent where
  | loadPlane
  | loadWalls
  | constructDrone (cls : String)
  | registerAdversaryPhysics
  | constructPhysics (cls : String)
  | setupTaskSpecifics
deriving DecidableEq, Repr

/-- The outcome of `_setup_simulation`: the actions performed before
returning or raising, and the exception raised, if any. -/
structure SetupResult where
  events : List SetupEvent
  raised : Option String
deriving DecidableEq, Repr

/-- The tail of `_setup_simulation` after the drone dispatch: the
`setattr` registering the adversary physics class, the `assert hasattr`,
the adversary-pairing assertion, the physics construction and the task
specifics. -/
def setup_after_drone (knownPhysics : List String) (drone_model physics : String)
    (evs : List SetupEvent) : SetupResult :=
  let evs := evs ++ [SetupEvent.registerAdversaryPhysics]
  if physics = "PybulletPhysicsWithAdversary" ∨ physics ∈ knownPhysics then
    if physics = "PybulletPhysicsWithAdversary" ∧ drone_model ≠ "cf21x_bullet_adversary" then
      ⟨evs, some "AssertionError"⟩
    else
      ⟨evs ++ [SetupEvent.constructPhysics physics, SetupEvent.setupTaskSpecifics], none⟩
  else
    ⟨evs, some "AssertionError"⟩

/-- `DroneHoverBulletEnvWithAdversary._setup_simulation`: load the plane
and the walls, dispatch on `drone_model` (raising `NotImplementedError`
for any unknown model), then run the tail (`setup_after_drone`).
`knownPhysics` abstracts the attribute names the external phoenix physics
module already has before the `setattr` call. -/
def setup_simulation (knownPhysics : List String)
    (drone_model : String) (physics : String) : SetupResult :=
  let ev0 := [SetupEvent.loadPlane, SetupEvent.loadWalls]
  if drone_model = "cf21x_bullet" then
    setup_after_drone knownPhysics drone_model physics
      (ev0 ++ [SetupEvent.constructDrone "CrazyFlieBulletAgent"])
  else if drone_model = "cf21x_sys_eq" then
    setup_after_drone knownPhysics drone_model physics
      (ev0 ++ [SetupEvent.constructDrone "CrazyFlieSimpleAgent"])
  else if drone_model = "cf21x_bullet_adversary" then
    setup_after_drone knownPhysics drone_model physics
      (ev0 ++ [SetupEvent.constructDrone "CrazyFlieBulletAgentWithAdversary"])
  else
    ⟨ev0, some "NotImplementedError"⟩

/-- A state whose only excursion is a yaw rate of 1001 degrees per
second: altitude 1, level attitude, zero roll and pitch rates. -/
def yawRateOnlyState : DroneState :=
  ⟨⟨0, 0, 1⟩, ⟨0, 0, 0, 1⟩, Vec3.zero, Vec3.zero, ⟨0, 0, deg2rad 1001⟩, fun _ => 0⟩

/-- A state exactly at every threshold: altitude exactly 0.2, roll and
pitch exactly at 75 degrees, all three rates exactly at 1000 degrees per
second. -/
def allBoundaryState : DroneState :=
  ⟨⟨0, 0, (0.2 : ℚ)⟩, ⟨0, 0, 0, 1⟩, Vec3.zero, ⟨deg2rad 75, -(deg2rad 75), 0⟩,
   ⟨deg2rad 1000, -(deg2rad 1000), deg2rad 1000⟩, fun _ => 0⟩

/-- The drag force exactly as claim C7 words it: the velocity vector
rotated INTO the body frame using the current orientation (for a unit
quaternion the world-to-body rotation is the transpose of the
body-to-world matrix) and scaled by
`drag_factor = -drag_coeff * sum(2*pi*rpm/60)`.  Stated from the spec's
words, to be compared with `dragForce`. -/
def dragForce_claim (dragCoeff : ℚ) (quat : Quat) (vel : Vec3) (x : Motors) : Vec3 :=
  smulV (dragFactor dragCoeff x)
    (matVec (getMatrixFromQuaternion quat).transpose vel)

/-- A unit quaternion describing a rotation about the z-axis
(`(3/5)^2 + (4/5)^2 = 1`) whose rotation matrix is not symmetric. -/
def cexQuat : Quat := ⟨0, 0, 3/5, 4/5⟩

/-- A unit velocity along the world x-axis. -/
def cexVel : Vec3 := ⟨1, 0, 0⟩

/-- All four motor speeds at 1, so the drag factor is nonzero. -/
def cexMotors : Motors := fun _ => 1

/-- A level resting state at altitude 1 (used only to instantiate
state-parametrized theorems at a concrete input). -/
def restState : DroneState :=
  ⟨⟨0, 0, 1⟩, ⟨0, 0, 0, 1⟩, Vec3.zero, Vec3.zero, Vec3.zero, fun _ => 0⟩

/-- The unit action box `[0, 1]^4`, a concrete instance of the stored
wrapper bounds. -/
def unitBounds : ActionBounds := ⟨fun _ => 0, fun _ => 1⟩

/-- `deg2rad` of a positive quantity is positive. -/
lemma deg2rad_pos {d : ℚ} (h : 0 < d) : 0 < deg2rad d := by
  have hpi : (0 : ℚ) < np_pi / 180 := by norm_num [np_pi]
  exact mul_pos h hpi

/-- An entry selected by the attitude mask `|a| > deg2rad 75` is nonzero,
so numpy's `.any()` over the selected entries is just nonemptiness. -/
lemma abs_gt_attitude_iff (a : ℚ) :
    (|a| > deg2rad 75 ∧ a ≠ 0) ↔ |a| > deg2rad 75 := by
  refine and_iff_left_of_imp fun h ha => ?_
  rw [ha, abs_zero] at h
  exact absurd h (not_lt.mpr (deg2rad_pos (by norm_num)).le)

/-- An entry selected by the rate mask `rad2deg |a| > 1000` is nonzero,
so numpy's `.any()` over the selected entries is just nonemptiness. -/
lemma rad2deg_gt_rate_iff (a : ℚ) :
    (rad2deg |a| > 1000 ∧ a ≠ 0) ↔ rad2deg |a| > 1000 := by
  refine and_iff_left_of_imp fun h ha => ?_
  rw [ha, abs_zero] at h
  norm_num [rad2deg] at h

/-- C1, counterexample: the claim says the yaw rate is excluded from the
rate check, but `compute_done` does not slice `rpy_dot` (unlike
`rpy[:2]`), so a pure yaw-rate excursion of 1001 degrees per second
terminates the episode while the claimed rule returns false. -/
theorem compute_done_yaw_rate_counterexample :
    compute_done yawRateOnlyState = true ∧
    compute_done_claim yawRateOnlyState = false := by
  constructor
  · norm_num [compute_done, yawRateOnlyState, deg2rad, rad2deg, np_pi, Vec3.zero,
      List.filter, List.any, abs_eq_max_neg, max_def]
  · norm_num [compute_done_claim, yawRateOnlyState, deg2rad, rad2deg, np_pi, Vec3.zero]

/-- C1 (amended): `compute_done` returns true if and only if at least one
of three independent conditions holds: altitude strictly below 0.2; roll
or pitch angle magnitude strictly greater than 75 degrees; roll-rate,
pitch-rate or yaw-rate magnitude strictly greater than 1000 degrees per
second (the rate check covers all three axes, yaw included).  All
comparisons are strict, so the state exactly at every threshold
(`allBoundaryState`) does not terminate. -/
theorem compute_done_characterization :
    (∀ drone : DroneState,
      compute_done drone = true ↔
        ((|drone.rpy.x| > deg2rad 75 ∨ |drone.rpy.y| > deg2rad 75) ∨
         (rad2deg |drone.rpy_dot.x| > 1000 ∨ rad2deg |drone.rpy_dot.y| > 1000 ∨
          rad2deg |drone.rpy_dot.z| > 1000) ∨
         drone.xyz.z < 0.2)) ∧
    compute_done allBoundaryState = false := by
  constructor
  · intro drone
    simp only [compute_done, List.any_filter, List.any_cons, List.any_nil,
      Bool.and_eq_true, decide_eq_true_eq, Bool.or_eq_true, Bool.or_false,
      Bool.if_true_left, Bool.or_true, Bool.true_or, ne_eq,
      abs_gt_attitude_iff, rad2deg_gt_rate_iff]
    tauto
  · norm_num [compute_done, allBoundaryState, deg2rad, rad2deg, np_pi, Vec3.zero,
      List.filter, List.any, abs_eq_max_neg, max_def]

/-- C2: in every physics substep the adversarial disturbance perturbs
only the roll and pitch channels: the external-torque calls of the
substep are exactly the two pure single-axis body-frame (link-frame)
torques `[dstb[0], 0, 0]` and `[0, dstb[1], 0]` on the center-of-mass
link, and the whole substep trace is unchanged when `dstb[2]` is replaced
by any other value, so the z/yaw component is never applied. -/
theorem step_forward_disturbance_roll_pitch_only
    (A : AgentModel) (useGE : Bool) (c : ℚ) (drone : DroneState)
    (action : ActionVec) (d0 d1 d2 d2' : ℚ) :
    externalTorques (step_forward A useGE c drone action ⟨d0, d1, d2⟩) =
      [(4, ⟨d0, 0, 0⟩, Frame.linkFrame), (4, ⟨0, d1, 0⟩, Frame.linkFrame)] ∧
    step_forward A useGE c drone action ⟨d0, d1, d2⟩ =
      step_forward A useGE c drone action ⟨d0, d1, d2'⟩ := by
  refine ⟨?_, rfl⟩
  simp only [step_forward, externalTorques, apply_x_torque, apply_y_torque,
    List.filterMap_append, List.filterMap]
  split <;> rfl

/-- C9: every `step_forward` call performs its engine calls in the fixed
order: motor forces, yaw torque, x-axis disturbance torque, y-axis
disturbance torque, drag force, then the ground-effect per-motor forces
if and only if the ground-effect predicate holds and the enable flag is
set, then exactly one integration tick, and finally the state refresh;
the trace contains exactly one integration tick. -/
theorem step_forward_effect_order
    (A : AgentModel) (useGE : Bool) (c : ℚ) (drone : DroneState)
    (action : ActionVec) (dstb : Vec3) :
    step_forward A useGE c drone action dstb =
      [Effect.applyMotorForces (A.applyAction drone.x action).1,
       Effect.applyZTorque (A.applyAction drone.x action).2.1,
       apply_x_torque dstb.x,
       apply_y_torque dstb.y,
       Effect.applyForce (dragForce c drone.quaternion drone.xyz_dot
         (A.applyAction drone.x action).2.2)]
      ++ (if (A.calculateGroundEffect (A.applyAction drone.x action).1).1 = true ∧
              useGE = true then
            [Effect.applyMotorForces
              (A.calculateGroundEffect (A.applyAction drone.x action).1).2]
          else [])
      ++ [Effect.stepSimulation, Effect.updateInformation] ∧
    stepSimulationCount (step_forward A useGE c drone action dstb) = 1 := by
  constructor
  · simp [step_forward, Bool.and_eq_true]
  · simp only [step_forward, stepSimulationCount, List.countP_append,
      apply_x_torque, apply_y_torque]
    split <;> simp [List.countP_cons, List.countP_nil]

/-- C6: the drag force computed in the physics substep is exactly the
zero vector whenever the linear velocity is the zero vector, regardless
of the motor-speed state (RPM proxy), the drag coefficient and the
orientation; accordingly the substep's queued drag force (the fifth
engine call) is the zero vector for any drone state with zero velocity. -/
theorem dragForce_zero_velocity :
    (∀ (c : ℚ) (q : Quat) (x : Motors), dragForce c q Vec3.zero x = Vec3.zero) ∧
    (∀ (A : AgentModel) (useGE : Bool) (c : ℚ) (drone : DroneState)
        (action : ActionVec) (dstb : Vec3),
      (step_forward A useGE c { drone with xyz_dot := Vec3.zero } action dstb)[4]? =
        some (Effect.applyForce Vec3.zero)) := by
  have hzero : ∀ (c : ℚ) (q : Quat) (x : Motors), dragForce c q Vec3.zero x = Vec3.zero := by
    intro c q x
    simp [dragForce, Vec3.zero, matVec, smulV]
  refine ⟨hzero, fun A useGE c drone action dstb => ?_⟩
  simp [step_forward, hzero]

/-- C7, counterexample: at drag coefficient 1, the non-symmetric unit
orientation `cexQuat`, velocity `cexVel` and motor state `cexMotors`, the
drag force the code computes differs from the claimed one: the code
multiplies the velocity by the body-to-world rotation matrix
`getMatrixFromQuaternion(quat)` itself, not by its transpose, so the
velocity is not rotated into the body frame. -/
theorem dragForce_not_body_frame_counterexample :
    dragForce 1 cexQuat cexVel cexMotors ≠ dragForce_claim 1 cexQuat cexVel cexMotors := by
  norm_num [dragForce, dragForce_claim, dragFactor, cexQuat, cexVel, cexMotors,
    getMatrixFromQuaternion, matVec, smulV, Mat3.transpose, Fin.sum_univ_four,
    np_pi, Vec3.mk.injEq]

/-- C7 (amended): the drag force applied each substep (the fifth engine
call of `step_forward`) equals the current velocity vector multiplied by
the rotation matrix of the current orientation quaternion — the
body-to-world matrix, i.e. the velocity is rotated BY the orientation,
not into the body frame — and scaled by
`drag_factor = -drag_coeff * sum(2*pi*rpm/60)` (sum over the four
motors), where the per-motor RPM proxy is `rpm_i = 25000 * x_i^2`, the
square of the motor-speed state that `apply_action` derives from the
commanded action through the first-order motor dynamics. -/
theorem step_forward_drag_formula
    (A : AgentModel) (useGE : Bool) (c : ℚ) (drone : DroneState)
    (action : ActionVec) (dstb : Vec3) :
    (step_forward A useGE c drone action dstb)[4]? =
      some (Effect.applyForce
        (smulV (dragFactor c (A.applyAction drone.x action).2.2)
          (matVec (getMatrixFromQuaternion drone.quaternion) drone.xyz_dot))) := by
  have key : ∀ (q : Quat) (v : Vec3) (x : Motors),
      dragForce c q v x = smulV (dragFactor c x) (matVec (getMatrixFromQuaternion q) v) := by
    intro q v x
    simp only [dragForce, dragFactor, matVec, smulV, Vec3.mk.injEq]
    refine ⟨by ring, by ring, by ring⟩
  simp [step_forward, key]

/-- The substep loop issues exactly its `(action, dstb)` pair to every
`step_forward` call: `n` identical calls. -/
lemma stepForwardCalls_substepLoop (action : ActionVec) (dstb : Vec3) (n : ℕ) :
    stepForwardCalls (substepLoop action dstb n) = List.replicate n (action, dstb) := by
  induction n with
  | zero => rfl
  | succ k ih =>
      simp only [substepLoop, stepForwardCalls, List.filterMap_cons, List.filterMap_append] at ih ⊢
      simp [ih, List.replicate_succ, stepForwardCalls]

/-- The substep loop never samples the disturbance generator. -/
lemma sampleCount_substepLoop (action : ActionVec) (dstb : Vec3) (n : ℕ) :
    sampleCount (substepLoop action dstb n) = 0 := by
  induction n with
  | zero => rfl
  | succ k ih =>
      simp only [substepLoop, sampleCount, List.countP_cons, List.countP_append] at ih ⊢
      simp [ih, sampleCount]

/-- C3: in every call of the environment's `step`, the disturbance is
sampled exactly once, before the substep loop (the trace starts with the
state read and then the single sample), and `step_forward` is invoked
exactly `aggregate_phy_steps` times, every one of those calls receiving
the identical action vector and the identical disturbance vector. -/
theorem env_step_substep_invariant (aggregate_phy_steps : ℕ)
    (gen : DroneState → Vec3) (drone : DroneState) (action : ActionVec) :
    stepForwardCalls (env_step aggregate_phy_steps gen drone action) =
      List.replicate aggregate_phy_steps (action, gen drone) ∧
    sampleCount (env_step aggregate_phy_steps gen drone action) = 1 ∧
    (env_step aggregate_phy_steps gen drone action).take 2 =
      [EnvEvent.getState, EnvEvent.sampleDstb (gen drone)] := by
  have hcalls := stepForwardCalls_substepLoop action (gen drone) aggregate_phy_steps
  have hsamples := sampleCount_substepLoop action (gen drone) aggregate_phy_steps
  simp only [stepForwardCalls] at hcalls
  simp only [sampleCount] at hsamples
  refine ⟨?_, ?_, ?_⟩
  · simp [env_step, stepForwardCalls, List.filterMap_append, hcalls]
  · simp [env_step, sampleCount, List.countP_append, List.countP_cons, hsamples]
  · simp [env_step]

/-- C4: every disturbance vector the generator returns lies within the
configured per-axis symmetric bounds, inclusive: `10^-3` for the x and y
axes and `10^-4` for the z axis, for any drone state and any underlying
uniform draw `u` with components in `[0, 1]`. -/
theorem dstb_gen_within_bounds (x : DroneState) (u : Vec3)
    (h0x : 0 ≤ u.x) (h1x : u.x ≤ 1) (h0y : 0 ≤ u.y) (h1y : u.y ≤ 1)
    (h0z : 0 ≤ u.z) (h1z : u.z ≤ 1) :
    (-(1/1000) ≤ (dstb_gen x u).x ∧ (dstb_gen x u).x ≤ 1/1000) ∧
    (-(1/1000) ≤ (dstb_gen x u).y ∧ (dstb_gen x u).y ≤ 1/1000) ∧
    (-(1/10000) ≤ (dstb_gen x u).z ∧ (dstb_gen x u).z ≤ 1/10000) := by
  simp only [dstb_gen, box_sample, dstb_space_low, dstb_space_high]
  refine ⟨⟨?_, ?_⟩, ⟨?_, ?_⟩, ⟨?_, ?_⟩⟩ <;> nlinarith

/-- C4, witness: the bounds hold at the concrete draw `(1/2, 0, 1)`. -/
theorem dstb_gen_within_bounds_witness :
    (-(1/1000) ≤ (dstb_gen restState ⟨1/2, 0, 1⟩).x ∧
      (dstb_gen restState ⟨1/2, 0, 1⟩).x ≤ 1/1000) ∧
    (-(1/1000) ≤ (dstb_gen restState ⟨1/2, 0, 1⟩).y ∧
      (dstb_gen restState ⟨1/2, 0, 1⟩).y ≤ 1/1000) ∧
    (-(1/10000) ≤ (dstb_gen restState ⟨1/2, 0, 1⟩).z ∧
      (dstb_gen restState ⟨1/2, 0, 1⟩).z ≤ 1/10000) :=
  dstb_gen_within_bounds restState ⟨1/2, 0, 1⟩ (by norm_num) (by norm_num)
    (by norm_num) (by norm_num) (by norm_num) (by norm_num)

/-- C5: the disturbance generator's output does not depend on its state
argument: under the same underlying random draw, any two drone states
yield the same disturbance vector. -/
theorem dstb_gen_state_independent (x1 x2 : DroneState) (u : Vec3) :
    dstb_gen x1 u = dstb_gen x2 u := rfl

/-- C8: `normalize_action` and `denormalize_action` of the action-space
wrapper are exact inverses whenever every component of the stored low
bound is strictly below the high bound, and `denormalize_action` maps the
constant `-1` vector to the low bound and the constant `+1` vector to the
high bound. -/
theorem normalize_denormalize_inverse (b : ActionBounds) (a : ActionVec)
    (h : ∀ i, b.low i < b.high i) :
    denormalize_action b (normalize_action b a) = a ∧
    normalize_action b (denormalize_action b a) = a ∧
    denormalize_action b (fun _ => -1) = b.low ∧
    denormalize_action b (fun _ => 1) = b.high := by
  have hne : ∀ i, b.high i - b.low i ≠ 0 := fun i => sub_ne_zero_of_ne (h i).ne'
  refine ⟨funext fun i => ?_, funext fun i => ?_, funext fun i => ?_, funext fun i => ?_⟩
  · have hd := hne i
    simp only [denormalize_action, normalize_action]
    field_simp
    ring
  · have hd := hne i
    simp only [normalize_action, denormalize_action]
    field_simp
    ring
  · simp [denormalize_action]
  · simp only [denormalize_action]
    field_simp

/-- C8, witness: the round trips hold at the unit box and the constant
`1/2` action. -/
theorem normalize_denormalize_inverse_witness :
    denormalize_action unitBounds (normalize_action unitBounds (fun _ => 1/2)) =
      (fun _ => 1/2) ∧
    normalize_action unitBounds (denormalize_action unitBounds (fun _ => 1/2)) =
      (fun _ => 1/2) ∧
    denormalize_action unitBounds (fun _ => -1) = unitBounds.low ∧
    denormalize_action unitBounds (fun _ => 1) = unitBounds.high :=
  normalize_denormalize_inverse unitBounds (fun _ => 1/2)
    (fun i => by norm_num [unitBounds])

/-- C10: for every `drone_model` string other than the three known models
`cf21x_bullet`, `cf21x_sys_eq` and `cf21x_bullet_adversary`,
`_setup_simulation` raises `NotImplementedError` having performed only
the plane and wall loading — in particular no physics object (and no
drone agent) is constructed, whatever the physics name and whatever
attributes the phoenix physics module has. -/
theorem setup_simulation_unknown_model (knownPhysics : List String)
    (drone_model physics : String)
    (h1 : drone_model ≠ "cf21x_bullet") (h2 : drone_model ≠ "cf21x_sys_eq")
    (h3 : drone_model ≠ "cf21x_bullet_adversary") :
    setup_simulation knownPhysics drone_model physics =
      ⟨[SetupEvent.loadPlane, SetupEvent.loadWalls], some "NotImplementedError"⟩ ∧
    (∀ p, SetupEvent.constructPhysics p ∉
      (setup_simulation knownPhysics drone_model physics).events) := by
  have hres : setup_simulation knownPhysics drone_model physics =
      ⟨[SetupEvent.loadPlane, SetupEvent.loadWalls], some "NotImplementedError"⟩ := by
    simp [setup_simulation, h1, h2, h3]
  exact ⟨hres, fun p => by simp [hres]⟩

/-- C10, witness: the unknown model name `cf21x_sim` raises
`NotImplementedError` before any physics construction. -/
theorem setup_simulation_unknown_model_witness :
    setup_simulation [] "cf21x_sim" "PyBulletPhysics" =
      ⟨[SetupEvent.loadPlane, SetupEvent.loadWalls], some "NotImplementedError"⟩ ∧
    (∀ p, SetupEvent.constructPhysics p ∉
      (setup_simulation [] "cf21x_sim" "PyBulletPhysics").events) :=
  setup_simulation_unknown_model [] "cf21x_sim" "PyBulletPhysics"
    (by decide) (by decide) (by decide)
